import Mathlib

/-!
Verification of the media resolution & delivery pipeline of the audiov1
Telegram bot (src/messenger.py, src/search.py) against its specification.

The Python code is shallowly embedded: pure fragments become Lean
functions, the session cache becomes an explicit map passed through the
operations with an explicit clock, HTTP traffic becomes explicit response
values, and raised exceptions become explicit outcome constructors.
Machine integers do not overflow in any modelled computation, so byte
counts and times are `Nat`.
-/

namespace Audiov1

/-! ## String helpers

Python string primitives used by the code, modelled over `List Char`
(Python strings are sequences of code points; all constants compared
against in the source are ASCII, where `Char.toLower`/`Char.toUpper`
agree with Python `str.lower`/`str.upper`). -/

/-- Python `needle in hay` for strings: substring containment. -/
def containsSub (needle : List Char) : List Char → Bool
  | [] => needle.isEmpty
  | c :: t => needle.isPrefixOf (c :: t) || containsSub needle t

/-- Python `str.lower` (ASCII). -/
def lowerStr (s : String) : String := String.mk (s.data.map Char.toLower)

/-- Python `str.upper` (ASCII). -/
def upperStr (s : String) : String := String.mk (s.data.map Char.toUpper)

/-- Python `s.split(sep)` for a non-empty separator, on code-point lists.
Fuel-based structural recursion (the fuel is an upper bound on the
remaining input length, so it is never exhausted when called through
`pySplit`). -/
def pySplitSub (sep : List Char) : Nat → List Char → List (List Char)
  | 0, l => [l]
  | _ + 1, [] => [[]]
  | fuel + 1, c :: rest =>
    if sep.isPrefixOf (c :: rest) then
      [] :: pySplitSub sep fuel ((c :: rest).drop sep.length)
    else
      match pySplitSub sep fuel rest with
      | [] => [[c]]
      | h :: t => (c :: h) :: t

/-- Python `s.split(sep)` for a non-empty separator `sep`. -/
def pySplit (sep : String) (s : String) : List String :=
  (pySplitSub sep.data (s.data.length + 1) s.data).map (fun l => String.mk l)

/-! ## Filename sanitizer

`MessengerDownloader.clean_filename` (src/messenger.py line 55) and the
identical `FastMusicSearcher.clean_filename` (src/search.py line 29):
`re.sub(r'[<>:"/\\|?*]', '', title)[:100]`. `re.sub` with the empty
replacement deletes every character of the class, i.e. filters the
string; `[:100]` keeps the first 100 code points. -/

/-- Membership in the regex character class `[<>:"/\\|?*]`. -/
def forbiddenChar (c : Char) : Bool :=
  c = '<' || c = '>' || c = ':' || c = '"' || c = '/' || c = '\\' ||
  c = '|' || c = '?' || c = '*'

/-- `clean_filename` from src/messenger.py line 55 / src/search.py line 29. -/
def clean_filename (title : String) : String :=
  String.mk ((title.data.filter (fun c => !forbiddenChar c)).take 100)

/-! ## Session cache

`MessengerDownloader.store_in_cache` / `get_from_cache` /
`cleanup_expired_cache` (src/messenger.py lines 80-108). The Python dict
`self.cache` is modelled as a partial map from session ids to entries;
`datetime.now()` becomes an explicit `now : Nat` (seconds); the TTL
`timedelta(minutes=15)` is 900 seconds. Each Python method makes one
`datetime.now()` observation per comparison within a single lock-guarded
region; the embedding uses one clock value per operation. -/

/-- One cache slot: `{"data": ..., "expires_at": ...}`. -/
structure CacheEntry (α : Type) where
  data : α
  expiresAt : Nat
deriving DecidableEq

/-- The `self.cache` dict, as a partial map. -/
def CacheMap (α : Type) : Type := String → Option (CacheEntry α)

/-- `self.cache_ttl = timedelta(minutes=15)`, in seconds. -/
def cacheTTL : Nat := 15 * 60

/-- `cleanup_expired_cache` (src/messenger.py lines 102-108): delete every
entry with `datetime.now() > data["expires_at"]`. -/
def cleanup_expired_cache (now : Nat) (c : CacheMap α) : CacheMap α :=
  fun k =>
    match c k with
    | some e => if now > e.expiresAt then none else some e
    | none => none

/-- `store_in_cache` (src/messenger.py lines 80-87): run the lazy
eviction, then bind the session id to the data with
`expires_at = now + cache_ttl`. -/
def store_in_cache (now : Nat) (sessionId : String) (d : α) (c : CacheMap α) :
    CacheMap α :=
  let c2 := cleanup_expired_cache now c
  fun k => if k = sessionId then some ⟨d, now + cacheTTL⟩ else c2 k

/-- `get_from_cache` (src/messenger.py lines 89-100): run the lazy
eviction, then return the entry's data if present and
`datetime.now() <= expires_at`, else `None`. The pair's second component
is the cache state after the call (mutated by the eviction). -/
def get_from_cache (now : Nat) (sessionId : String) (c : CacheMap α) :
    Option α × CacheMap α :=
  let c2 := cleanup_expired_cache now c
  (match c2 sessionId with
   | some e => if now ≤ e.expiresAt then some e.data else none
   | none => none,
   c2)

/-! ## Streaming downloader (messenger)

`MessengerDownloader.download_file` (src/messenger.py lines 441-477).
An HTTP response is modelled by its status code, `content-type` header,
optional `content-length` header, the sizes of the non-empty chunks
`iter_content` yields, and whether the iteration raises after those
chunks (covering any I/O exception mid-stream). A `session.get` call
that itself raises is `GetResult.raised`. The function's value is the
returned boolean paired with the byte count of the file left at
`filename` (`none` when no file was created or it was removed). -/

/-- One HTTP response as observed by the downloaders. -/
structure HttpResponse where
  statusCode : Nat
  contentType : String
  contentLength : Option Nat
  chunks : List Nat
  streamError : Bool
deriving DecidableEq

/-- Result of one `session.get` call: the request itself may raise. -/
inductive GetResult where
  | raised
  | ok (r : HttpResponse)
deriving DecidableEq

/-- Total bytes of the yielded chunks. -/
def sumChunks (chunks : List Nat) : Nat := chunks.sum

/-- Allow-list check on the lowercased `content-type` header
(src/messenger.py lines 452-453). -/
def validContentType (ct : String) : Bool :=
  containsSub "image/".data (lowerStr ct).data ||
  containsSub "video/".data (lowerStr ct).data ||
  containsSub "application/octet-stream".data (lowerStr ct).data

/-- Body of `download_file` once a response is in hand
(src/messenger.py lines 448-477): status check, content-type check,
declared-size check against the 100MB cap (the `content-length` header
defaulting to `file_size * 1024 * 1024`), then the write loop. Every
yielded chunk is written; the write loop keeps no byte counter, and an
exception mid-stream is caught and reported as `false` with the partial
file left in place. -/
def downloadFileBody (r : HttpResponse) (fileSize : Nat) : Bool × Option Nat :=
  if r.statusCode ≠ 200 then (false, none)
  else if !validContentType r.contentType then (false, none)
  else
    let totalSize := r.contentLength.getD (fileSize * 1024 * 1024)
    if totalSize > 100 * 1024 * 1024 then (false, none)
    else if r.streamError then (false, some (sumChunks r.chunks))
    else (true, some (sumChunks r.chunks))

/-- `download_file` (src/messenger.py lines 441-477). `primary` is the
GET on `url`; `fallbackGet` is the GET on `direct_url`, present exactly
when a `direct_url` argument was supplied, and consulted only when the
primary response has a non-200 status. -/
def download_file (primary : GetResult) (fallbackGet : Option GetResult)
    (fileSize : Nat) : Bool × Option Nat :=
  match primary with
  | .raised => (false, none)
  | .ok r =>
    if r.statusCode ≠ 200 then
      match fallbackGet with
      | some .raised => (false, none)
      | some (.ok r2) => downloadFileBody r2 fileSize
      | none => downloadFileBody r fileSize
    else downloadFileBody r fileSize

/-! ## Streaming downloader (music search)

The download section of `FastMusicSearcher._download_audio_only_async`
(src/search.py lines 229-252): `raise_for_status`, the declared
content-length check against the 50MB audio cap, then the chunk loop
that maintains `downloaded_size` and, the moment it exceeds the cap,
closes and removes the file and reports too-large. -/

/-- Outcome of the search download section. `raised` marks an exception
propagating to the outer handler (non-2xx status, or a stream error). -/
inductive SearchDlOutcome where
  | raised
  | tooLargeHeader
  | tooLargeStream
  | done (size : Nat)
deriving DecidableEq

/-- The `with open(...)` write loop (src/search.py lines 240-252):
skip empty chunks, write, add to `downloaded_size`, and on
`downloaded_size > max` close, `os.remove` the file and return. If the
chunks are exhausted and the stream then raises, the exception
propagates with the partial file left on disk. -/
def searchWriteLoop (maxBytes : Nat) (streamError : Bool) (written : Nat) :
    List Nat → SearchDlOutcome × Option Nat
  | [] =>
    if streamError then (.raised, some written) else (.done written, some written)
  | c :: rest =>
    if c = 0 then searchWriteLoop maxBytes streamError written rest
    else if written + c > maxBytes then (.tooLargeStream, none)
    else searchWriteLoop maxBytes streamError (written + c) rest

/-- The audio cap: `max_size_mb = 50` (src/search.py line 199). -/
def searchMaxBytes : Nat := 50 * 1024 * 1024

/-- The download section of `_download_audio_only_async`
(src/search.py lines 229-252). `raise_for_status` raises for 4xx/5xx;
the header check `int(content_length) / (1024*1024) > 50` is equivalent
to `content_length > 50*1024*1024`; it runs before the file is opened,
so a header rejection leaves nothing on disk. -/
def searchDownload (r : HttpResponse) : SearchDlOutcome × Option Nat :=
  if r.statusCode ≥ 400 then (.raised, none)
  else
    match r.contentLength with
    | some cl =>
      if cl > searchMaxBytes then (.tooLargeHeader, none)
      else searchWriteLoop searchMaxBytes r.streamError 0 r.chunks
    | none => searchWriteLoop searchMaxBytes r.streamError 0 r.chunks

/-! ## Two-phase resolver

`MessengerDownloader._get_final_download_url` (src/messenger.py lines
828-854) and the textually identical `FastMusicSearcher._get_detail_async`
(src/search.py lines 290-316). The external job endpoint is modelled as
a function from the 0-based attempt index to what that poll observes:
either a raised exception (network error, bad status, bad JSON) or a
parsed response carrying `percent`, `fileUrl` and `fileName` (absent
JSON fields are the empty string, matching Python falsiness). -/

/-- What one poll of the job endpoint observes. -/
inductive PollOutcome where
  | exn
  | resp (percent fileUrl fileName : String)
deriving DecidableEq

/-- The success test applied to one poll: `percent == "Completed"` and
both `fileUrl` and `fileName` truthy (src/messenger.py lines 838-842). -/
def pollSuccess : PollOutcome → Option (String × String)
  | .exn => none
  | .resp p u n =>
    if p = "Completed" ∧ u ≠ "" ∧ n ≠ "" then some (u, n) else none

/-- Observable result of the polling loop: the returned pair, the number
of endpoint calls issued, and the number of 2-second backoff sleeps. -/
structure PollResult where
  result : Option (String × String)
  calls : Nat
  sleeps : Nat
deriving DecidableEq

/-- The `for attempt in range(max_attempts)` loop (src/messenger.py lines
831-852), by recursion on the remaining attempts. A successful poll
returns at once; a failed or raising poll sleeps and retries unless it
was the final attempt, in which case the loop ends (the `except` arm
breaks) and `(None, None)` is returned. -/
def pollAux (ep : Nat → PollOutcome) (attempt : Nat) : Nat → PollResult
  | 0 => ⟨none, 0, 0⟩
  | rem + 1 =>
    match ep attempt with
    | .exn =>
      if rem = 0 then ⟨none, 1, 0⟩
      else
        let r := pollAux ep (attempt + 1) rem
        ⟨r.result, r.calls + 1, r.sleeps + 1⟩
    | .resp p u n =>
      if p = "Completed" ∧ u ≠ "" ∧ n ≠ "" then ⟨some (u, n), 1, 0⟩
      else if rem = 0 then ⟨none, 1, 0⟩
      else
        let r := pollAux ep (attempt + 1) rem
        ⟨r.result, r.calls + 1, r.sleeps + 1⟩

/-- `_get_final_download_url` / `_get_detail_async` with
`max_attempts = 10`. -/
def getFinalDownloadUrl (ep : Nat → PollOutcome) : PollResult :=
  pollAux ep 0 10

/-! ## Best-audio selection

The selection block of `FastMusicSearcher._download_audio_only_async`
(src/search.py lines 159-191): a first pass over `mediaItems` that
breaks at the first good 128K audio item and otherwise remembers the
first good M4A, then a fallback pass that takes the first item of type
"audio" regardless of quality. -/

/-- One element of the ytdown `mediaItems` array, with the fields the
code reads (a missing JSON field is the empty string, matching
`item.get(..., "")`). -/
structure YtMediaItem where
  type : String
  mediaExtension : String
  mediaQuality : String
  mediaRes : String
  mediaUrl : String
  mediaFileSize : String
deriving DecidableEq

/-- Audio-kind test (src/search.py line 169):
`media_type == "audio" or extension == "M4A"` on the lowercased type and
uppercased extension. -/
def audioKind (it : YtMediaItem) : Bool :=
  lowerStr it.type = "audio" || upperStr it.mediaExtension = "M4A"

/-- Deny-list test (src/search.py line 171):
`"false" in quality.lower() or quality in ["48K"]`. -/
def badQuality (q : String) : Bool :=
  containsSub "false".data (lowerStr q).data || q = "48K"

/-- First pass (src/search.py lines 163-180), with `best` the running
`best_audio` variable: break at the first non-denied audio-kind item of
quality exactly "128K"; otherwise, while `best_audio` is unset, remember
the first non-denied item of extension M4A. -/
def bestAudioFirstPass : List YtMediaItem → Option YtMediaItem → Option YtMediaItem
  | [], best => best
  | it :: rest, best =>
    if audioKind it then
      if badQuality it.mediaQuality then bestAudioFirstPass rest best
      else if it.mediaQuality = "128K" then some it
      else if best.isNone && upperStr it.mediaExtension = "M4A" then
        bestAudioFirstPass rest (some it)
      else bestAudioFirstPass rest best
    else bestAudioFirstPass rest best

/-- Fallback pass (src/search.py lines 182-188): first item whose
lowercased type is "audio", with no quality check. -/
def bestAudioFallback : List YtMediaItem → Option YtMediaItem
  | [] => none
  | it :: rest =>
    if lowerStr it.type = "audio" then some it else bestAudioFallback rest

/-- The complete best-audio selection (src/search.py lines 159-191). -/
def pickBestAudio (items : List YtMediaItem) : Option YtMediaItem :=
  match bestAudioFirstPass items none with
  | some b => some b
  | none => bestAudioFallback items

/-! ## YouTube resolver format filter

The filtering loop of `MessengerDownloader.youtube_download`
(src/messenger.py lines 159-177) that builds the `formats` list later
stored in the cache entry under `yt_formats`. -/

/-- One element of the `formats` list built by `youtube_download`. -/
structure YtFormat where
  extension : String
  resolution : String
  quality : String
  url : String
  fileSize : String
  type : String
deriving DecidableEq

/-- The YouTube deny-list test (src/messenger.py line 166):
`"false" in quality.lower() or quality in ["48K", "128K"]`. -/
def ytM4aDenied (q : String) : Bool :=
  containsSub "false".data (lowerStr q).data || q = "48K" || q = "128K"

/-- The filtering loop (src/messenger.py lines 160-177): skip m4a items
with a denied quality label; keep mp4/m4a items with a truthy
`mediaUrl`. -/
def ytFilterFormats : List YtMediaItem → List YtFormat
  | [] => []
  | item :: rest =>
    let ext := lowerStr item.mediaExtension
    if ext = "m4a" && ytM4aDenied item.mediaQuality then
      ytFilterFormats rest
    else if (ext = "mp4" || ext = "m4a") && item.mediaUrl ≠ "" then
      ⟨item.mediaExtension, item.mediaRes, item.mediaQuality,
       item.mediaUrl, item.mediaFileSize, item.type⟩ :: ytFilterFormats rest
    else ytFilterFormats rest

/-! ## TikTok resolver cache entry

`MessengerDownloader.tiktok_download` (src/messenger.py lines 274-303):
the `links` array of the lovetik response is placed into the cache entry
verbatim (`cache_data = {..., "tt_links": links, ...}`, lines 298-302);
only the rendering of buttons (lines 277-294) inspects `t`. -/

/-- One element of the lovetik `links` array: `t` (type label), `s`
(quality label), `a` (download URL); a missing field is the empty
string. -/
structure TtLink where
  t : String
  s : String
  a : String
deriving DecidableEq

/-- The TikTok cache entry (src/messenger.py lines 298-302). -/
structure TtCacheData where
  ttTitle : String
  ttLinks : List TtLink
  ttTimestamp : String
deriving DecidableEq

/-- Construction of the TikTok cache entry: the sanitized description,
the unfiltered `links` list, and the timestamp string. -/
def tiktokCacheData (desc : String) (links : List TtLink) (ts : String) :
    TtCacheData :=
  ⟨clean_filename desc, links, ts⟩

/-! ## Instagram resolver media items

`MessengerDownloader.parse_media_from_html` (src/messenger.py lines
410-439). The BeautifulSoup iteration over `<a href=...>` elements is
modelled as a list of anchor records; `urllib.parse.unquote` (percent
decoding, irrelevant to every claim) is passed in as a function. The
cache entry of `instagram_download` (lines 379-384) stores
`media_items[0]`'s `url` and `direct_url`. -/

/-- One anchor as the code reads it: `href`, the resolved title text
(`link.get("title") or span text or "Instagram Media"`), the
`data-filesize` attribute, and the `name` attribute. -/
structure InstaAnchor where
  href : String
  titleText : String
  filesizeAttr : String
  name : String
deriving DecidableEq

/-- One element of the `media_items` list. -/
structure InstaMediaItem where
  url : String
  directUrl : String
  title : String
  fileSize : String
  extension : String
  name : String
deriving DecidableEq

/-- The anchor marker `"media.php?media="`. -/
def mediaMarker : String := "media.php?media="

/-- The `media_items` construction (src/messenger.py lines 414-431):
keep anchors whose `href` contains the marker; `url` is the `href`
itself, `direct_url` the unquoted segment after the marker
(`href.split("media.php?media=")[1]`), `extension` the lowercased last
dot-component of `name` when `name` contains a dot, else "mp4". -/
def parseMediaAnchors (unquoteFn : String → String) :
    List InstaAnchor → List InstaMediaItem
  | [] => []
  | a :: rest =>
    if containsSub mediaMarker.data a.href.data then
      { url := a.href,
        directUrl := unquoteFn ((pySplit mediaMarker a.href).getD 1 ""),
        title := clean_filename a.titleText,
        fileSize := a.filesizeAttr,
        extension :=
          if a.name ≠ "" && containsSub ".".data a.name.data then
            lowerStr ((pySplit "." a.name).getLastD "")
          else "mp4",
        name := a.name } :: parseMediaAnchors unquoteFn rest
    else parseMediaAnchors unquoteFn rest

/-! ## Callback router

`MessengerDownloader.handle_callback` (src/messenger.py lines 490-530):
split the token on underscores; fewer than 3 parts, or fewer than 4,
both answer the invalid-button notice and return before any cache
access; otherwise `platform = parts[0]`, `format_type = parts[1]`,
`timestamp = parts[2]`, `session_id = parts[3]`, the session cache is
consulted, a miss answers the session-expired notice, and a hit
dispatches on the platform tag (any other tag falls through the
`if/elif` chain with no handler). -/

/-- What `handle_callback` does with a token, up to the dispatched
handler. -/
inductive RouteResult where
  | invalidButton
  | sessionExpired (sessionId : String)
  | dispatchYoutube (formatType ts sessionId : String)
  | dispatchTiktok (formatType ts sessionId : String)
  | dispatchInstagram (formatType ts sessionId : String)
  | noHandler (platform : String)
deriving DecidableEq

/-- The routing logic of `handle_callback` (src/messenger.py lines
490-524), parametric in the cache lookup `cache` (the composition of
`get_from_cache` at the time of the press). -/
def handle_callback (cache : String → Option α) (token : String) : RouteResult :=
  let parts := pySplit "_" token
  if parts.length < 3 then .invalidButton
  else
    let platform := parts.getD 0 ""
    let formatType := parts.getD 1 ""
    if parts.length ≥ 4 then
      let ts := parts.getD 2 ""
      let sessionId := parts.getD 3 ""
      match cache sessionId with
      | none => .sessionExpired sessionId
      | some _ =>
        if platform = "yt" then .dispatchYoutube formatType ts sessionId
        else if platform = "tt" then .dispatchTiktok formatType ts sessionId
        else if platform = "insta" then .dispatchInstagram formatType ts sessionId
        else .noHandler platform
    else .invalidButton

/-! ## Theorems -/

/-- Filtering the forbidden characters out of a capped sanitized list
changes nothing, and the cap is already met. -/
theorem cleanChars_idem (l : List Char) :
    (((l.filter (fun c => !forbiddenChar c)).take 100).filter
        (fun c => !forbiddenChar c)).take 100 =
      (l.filter (fun c => !forbiddenChar c)).take 100 := by
  have h1 : ∀ a ∈ (l.filter (fun c => !forbiddenChar c)).take 100,
      (!forbiddenChar a) = true :=
    fun a ha => (List.mem_filter.mp (List.take_subset _ _ ha)).2
  rw [List.filter_eq_self.mpr h1]
  refine List.take_of_length_le ?_
  rw [List.length_take]
  exact Nat.min_le_left _ _

/-- C10: the title sanitizer `clean_filename` is idempotent, its result
is at most 100 characters long, and the result contains none of the
characters `< > : " / \ | ? *`; hence every title a resolver places in a
cache entry (always of the form `clean_filename t`) is a fixed point of
the sanitizer. -/
theorem clean_filename_idempotent_bounded (s : String) :
    clean_filename (clean_filename s) = clean_filename s ∧
    (clean_filename s).length ≤ 100 ∧
    (clean_filename s).data.all (fun c => !forbiddenChar c) = true := by
  refine ⟨congrArg String.mk (cleanChars_idem s.data), ?_, ?_⟩
  · show (List.take 100 _).length ≤ 100
    rw [List.length_take]
    exact Nat.min_le_left _ _
  · exact List.all_eq_true.mpr
      (fun a ha => (List.mem_filter.mp (List.take_subset _ _ ha)).2)

/-- The stored session id maps to the fresh entry. -/
theorem store_in_cache_self (t0 : Nat) (sid : String) (d : α) (c : CacheMap α) :
    store_in_cache t0 sid d c sid = some ⟨d, t0 + cacheTTL⟩ := by
  show (if sid = sid then some (⟨d, t0 + cacheTTL⟩ : CacheEntry α)
        else cleanup_expired_cache t0 c sid) = some ⟨d, t0 + cacheTTL⟩
  rw [if_pos rfl]

/-- Evaluation of `get_from_cache` when the map holds an entry. -/
theorem get_from_cache_eval_some (now : Nat) (sid : String) (c : CacheMap α)
    (e : CacheEntry α) (h : c sid = some e) :
    (get_from_cache now sid c).1 =
      if now ≤ e.expiresAt then some e.data else none := by
  show (match (match c sid with
             | some e => if now > e.expiresAt then none else some e
             | none => none) with
        | some e => if now ≤ e.expiresAt then some e.data else none
        | none => none) =
      if now ≤ e.expiresAt then some e.data else none
  rw [h]
  show (match (if now > e.expiresAt then none else some e) with
        | some e => if now ≤ e.expiresAt then some e.data else none
        | none => none) =
      if now ≤ e.expiresAt then some e.data else none
  by_cases hgt : now > e.expiresAt
  · rw [if_pos hgt, if_neg (by omega : ¬ now ≤ e.expiresAt)]
  · rw [if_neg hgt]

/-- Evaluation of `get_from_cache` when the map has no entry. -/
theorem get_from_cache_eval_none (now : Nat) (sid : String) (c : CacheMap α)
    (h : c sid = none) : (get_from_cache now sid c).1 = none := by
  show (match (match c sid with
             | some e => if now > e.expiresAt then none else some e
             | none => none) with
        | some e => if now ≤ e.expiresAt then some e.data else none
        | none => none) = none
  rw [h]

/-- C3: session-cache TTL behaviour. A `get` on a session id less than
the 900-second TTL after its `store` returns the stored data unchanged;
a `get` strictly after the TTL has elapsed returns `None`; a `get` on a
never-stored id returns `None`. (The embedded operations are total
functions, so no case can raise.) -/
theorem session_cache_ttl (α : Type) (c : CacheMap α) (t0 t : Nat)
    (sid : String) (d : α) :
    (t < t0 + cacheTTL →
      (get_from_cache t sid (store_in_cache t0 sid d c)).1 = some d) ∧
    (t > t0 + cacheTTL →
      (get_from_cache t sid (store_in_cache t0 sid d c)).1 = none) ∧
    (c sid = none → (get_from_cache t sid c).1 = none) := by
  refine ⟨fun h => ?_, fun h => ?_, fun h => ?_⟩
  · rw [get_from_cache_eval_some t sid _ _ (store_in_cache_self t0 sid d c)]
    exact if_pos (le_of_lt h : t ≤ t0 + cacheTTL)
  · rw [get_from_cache_eval_some t sid _ _ (store_in_cache_self t0 sid d c)]
    exact if_neg (by omega : ¬ t ≤ t0 + cacheTTL)
  · exact get_from_cache_eval_none t sid c h

/-- Witness for C3 at concrete inputs: store at time 0, hit at time 10,
miss at time 1000, miss on an empty cache. -/
theorem session_cache_ttl_witness :
    (get_from_cache 10 "s" (store_in_cache 0 "s" (5 : Nat)
        (fun _ => none))).1 = some 5 ∧
    (get_from_cache 1000 "s" (store_in_cache 0 "s" (5 : Nat)
        (fun _ => none))).1 = none ∧
    (get_from_cache 7 "s" (fun _ => (none : Option (CacheEntry Nat)))).1 = none :=
  ⟨(session_cache_ttl Nat _ 0 10 "s" 5).1 (by decide),
   (session_cache_ttl Nat _ 0 1000 "s" 5).2.1 (by decide),
   (session_cache_ttl Nat _ 0 7 "s" 5).2.2 rfl⟩

/-- C9: every cache operation preserves unrelated live entries. If `k`
holds an entry whose expiry has not passed, then a `store` under a
different session id, a `get` under any session id, and a
`cleanup_expired_cache` all leave exactly that entry at `k`. -/
theorem session_cache_preserves_live_entries (α : Type) (c : CacheMap α)
    (now : Nat) (sid : String) (d : α) (k : String) (e : CacheEntry α)
    (hk : c k = some e) (hlive : now ≤ e.expiresAt) :
    (k ≠ sid → store_in_cache now sid d c k = some e) ∧
    (∀ sid2, (get_from_cache now sid2 c).2 k = some e) ∧
    cleanup_expired_cache now c k = some e := by
  have hcl : cleanup_expired_cache now c k = some e := by
    unfold cleanup_expired_cache
    rw [hk]
    exact if_neg (by omega)
  refine ⟨fun hne => ?_, fun _ => hcl, hcl⟩
  show (if k = sid then some ⟨d, now + cacheTTL⟩
        else cleanup_expired_cache now c k) = some e
  rw [if_neg hne]
  exact hcl

/-- Witness for C9 at concrete inputs: a one-entry cache whose live
entry survives a store under another id, a get, and a cleanup. -/
theorem session_cache_preserves_witness :
    store_in_cache 5 "other" (9 : Nat)
        (fun k => if k = "s" then some ⟨7, 100⟩ else none) "s" = some ⟨7, 100⟩ ∧
    (get_from_cache 5 "whatever"
        (fun k => if k = "s" then some (⟨7, 100⟩ : CacheEntry Nat) else none)).2 "s" =
      some ⟨7, 100⟩ ∧
    cleanup_expired_cache 5
        (fun k => if k = "s" then some (⟨7, 100⟩ : CacheEntry Nat) else none) "s" =
      some ⟨7, 100⟩ := by
  have h := session_cache_preserves_live_entries Nat
    (fun k => if k = "s" then some ⟨7, 100⟩ else none) 5 "other" 9 "s" ⟨7, 100⟩
    (by decide) (by decide)
  exact ⟨h.1 (by decide), h.2.1 "whatever", h.2.2⟩

/-- One unrolling of the polling loop, phrased through the per-attempt
success test. -/
theorem pollAux_step (ep : Nat → PollOutcome) (attempt rem : Nat) :
    pollAux ep attempt (rem + 1) =
      match pollSuccess (ep attempt) with
      | some un => ⟨some un, 1, 0⟩
      | none =>
        if rem = 0 then ⟨none, 1, 0⟩
        else ⟨(pollAux ep (attempt + 1) rem).result,
              (pollAux ep (attempt + 1) rem).calls + 1,
              (pollAux ep (attempt + 1) rem).sleeps + 1⟩ := by
  cases hep : ep attempt with
  | exn => simp [pollAux, pollSuccess, hep]
  | resp p u n =>
    by_cases hc : p = "Completed" ∧ u ≠ "" ∧ n ≠ ""
    · simp [pollAux, pollSuccess, hep, hc]
    · simp [pollAux, pollSuccess, hep, hc]

/-- When every remaining poll fails, the loop makes exactly one call per
attempt, sleeps between consecutive attempts, and ends with no result. -/
theorem pollAux_all_fail (ep : Nat → PollOutcome) :
    ∀ rem attempt, 0 < rem →
      (∀ j, j < rem → pollSuccess (ep (attempt + j)) = none) →
      pollAux ep attempt rem = ⟨none, rem, rem - 1⟩ := by
  intro rem
  induction rem with
  | zero => intro attempt h _; omega
  | succ r ih =>
    intro attempt _ hfail
    have h0 : pollSuccess (ep attempt) = none := by
      have := hfail 0 (Nat.succ_pos r)
      simpa using this
    rw [pollAux_step, h0]
    cases r with
    | zero => simp
    | succ r2 =>
      have hrec : pollAux ep (attempt + 1) (r2 + 1) = ⟨none, r2 + 1, r2⟩ := by
        refine ih (attempt + 1) (Nat.succ_pos r2) (fun j hj => ?_)
        have := hfail (j + 1) (by omega)
        have harith : attempt + (j + 1) = attempt + 1 + j := by omega
        rwa [harith] at this
      simp [hrec]

/-- When the first successful poll is attempt `k` (0-based), the loop
makes exactly `k + 1` calls, sleeps `k` times, and returns that poll's
pair. -/
theorem pollAux_first_success (ep : Nat → PollOutcome) :
    ∀ (k : Nat) (attempt rem : Nat) (un : String × String), k < rem →
      pollSuccess (ep (attempt + k)) = some un →
      (∀ j, j < k → pollSuccess (ep (attempt + j)) = none) →
      pollAux ep attempt rem = ⟨some un, k + 1, k⟩ := by
  intro k
  induction k with
  | zero =>
    intro attempt rem un hrem hsucc _
    obtain ⟨r, rfl⟩ : ∃ r, rem = r + 1 := ⟨rem - 1, by omega⟩
    rw [pollAux_step]
    simpa using congrArg (fun o => (match o with
      | some un => (⟨some un, 1, 0⟩ : PollResult)
      | none =>
        if r = 0 then ⟨none, 1, 0⟩
        else ⟨(pollAux ep (attempt + 1) r).result,
              (pollAux ep (attempt + 1) r).calls + 1,
              (pollAux ep (attempt + 1) r).sleeps + 1⟩)) (by simpa using hsucc)
  | succ k2 ih =>
    intro attempt rem un hrem hsucc hfail
    obtain ⟨r, rfl⟩ : ∃ r, rem = r + 1 := ⟨rem - 1, by omega⟩
    have h0 : pollSuccess (ep attempt) = none := by
      have := hfail 0 (Nat.succ_pos k2)
      simpa using this
    rw [pollAux_step, h0]
    have hr0 : r ≠ 0 := by omega
    have hrec : pollAux ep (attempt + 1) r = ⟨some un, k2 + 1, k2⟩ := by
      refine ih (attempt + 1) r un (by omega) ?_ (fun j hj => ?_)
      · have harith : attempt + (k2 + 1) = attempt + 1 + k2 := by omega
        rwa [harith] at hsucc
      · have := hfail (j + 1) (by omega)
        have harith : attempt + (j + 1) = attempt + 1 + j := by omega
        rwa [harith] at this
    simp [hr0, hrec]

/-- C4: the two-phase resolver `_get_final_download_url` /
`_get_detail_async`. If the job endpoint first reports the completed
sentinel with non-empty file URL and name on 0-based attempt `k` (the
claim's 1-based attempt `k + 1 ≤ 10`), exactly `k + 1` status calls are
made, `k` backoff sleeps occur, and that pair is returned; if no attempt
succeeds (raised exceptions counting the same as not-ready responses),
exactly 10 calls are made with the 9 sleeps between consecutive attempts
and `(None, None)` is returned. The embedding is a total function, so no
per-attempt exception escapes to the caller. -/
theorem two_phase_resolver (ep : Nat → PollOutcome) :
    (∀ (k : Nat) (un : String × String), k < 10 →
      pollSuccess (ep k) = some un →
      (∀ j, j < k → pollSuccess (ep j) = none) →
      getFinalDownloadUrl ep = ⟨some un, k + 1, k⟩) ∧
    ((∀ j, j < 10 → pollSuccess (ep j) = none) →
      getFinalDownloadUrl ep = ⟨none, 10, 9⟩) := by
  constructor
  · intro k un hk hsucc hfail
    refine pollAux_first_success ep k 0 10 un hk ?_ (fun j hj => ?_)
    · simpa using hsucc
    · simpa using hfail j hj
  · intro hfail
    refine pollAux_all_fail ep 10 0 (by omega) (fun j hj => ?_)
    simpa using hfail j hj

/-- Witness for C4: an endpoint completing on the third attempt yields
exactly 3 calls and the pair; an endpoint that always raises yields 10
calls, 9 sleeps and no result. -/
theorem two_phase_resolver_witness :
    getFinalDownloadUrl
        (fun j => if j = 2 then .resp "Completed" "u.bin" "name.m4a" else .exn) =
      ⟨some ("u.bin", "name.m4a"), 3, 2⟩ ∧
    getFinalDownloadUrl (fun _ => .exn) = ⟨none, 10, 9⟩ :=
  ⟨(two_phase_resolver _).1 2 ("u.bin", "name.m4a") (by omega) (by decide)
      (by decide),
   (two_phase_resolver _).2 (by decide)⟩

/-- C8: callback-router guards and dispatch. A token splitting into
fewer than four underscore-separated parts is answered with the
invalid-button notice for every possible cache state — so no cache
lookup and no platform dispatch can occur; the four-segment token
`"yt_3_20240101000000_abc123"` dispatches to the YouTube handler with
format selector `"3"` and session id `"abc123"`, and
`"insta_mp3_20240101000000_abc123"` dispatches to the Instagram handler
with the audio selector `"mp3"` and session id `"abc123"`. -/
theorem callback_router_guards (α : Type) (cache : String → Option α) :
    (∀ token, (pySplit "_" token).length < 4 →
      handle_callback cache token = .invalidButton) ∧
    (∀ x : α, cache "abc123" = some x →
      handle_callback cache "yt_3_20240101000000_abc123" =
        .dispatchYoutube "3" "20240101000000" "abc123") ∧
    (∀ x : α, cache "abc123" = some x →
      handle_callback cache "insta_mp3_20240101000000_abc123" =
        .dispatchInstagram "mp3" "20240101000000" "abc123") := by
  refine ⟨fun token hlen => ?_, fun x hx => ?_, fun x hx => ?_⟩
  · by_cases h3 : (pySplit "_" token).length < 3
    · simp [handle_callback, h3]
    · have h4 : ¬ (pySplit "_" token).length ≥ 4 := by omega
      simp [handle_callback, h3, h4]
  · have e : handle_callback cache "yt_3_20240101000000_abc123" =
        (match cache "abc123" with
         | none => RouteResult.sessionExpired "abc123"
         | some _ => RouteResult.dispatchYoutube "3" "20240101000000" "abc123") :=
      rfl
    rw [e, hx]
  · have e : handle_callback cache "insta_mp3_20240101000000_abc123" =
        (match cache "abc123" with
         | none => RouteResult.sessionExpired "abc123"
         | some _ =>
             RouteResult.dispatchInstagram "mp3" "20240101000000" "abc123") :=
      rfl
    rw [e, hx]

/-- Witness for C8 at a concrete cache holding session `"abc123"`. -/
theorem callback_router_guards_witness :
    handle_callback (fun s => if s = "abc123" then some (0 : Nat) else none)
        "yt_3_20240101000000_abc123" =
      .dispatchYoutube "3" "20240101000000" "abc123" ∧
    handle_callback (fun s => if s = "abc123" then some (0 : Nat) else none)
        "insta_mp3_20240101000000_abc123" =
      .dispatchInstagram "mp3" "20240101000000" "abc123" ∧
    handle_callback (fun s => if s = "abc123" then some (0 : Nat) else none)
        "yt_3" = .invalidButton :=
  ⟨(callback_router_guards Nat _).2.1 0 (by decide),
   (callback_router_guards Nat _).2.2 0 (by decide),
   (callback_router_guards Nat _).1 "yt_3" (by decide)⟩

/-- C2 (refuting evaluation): the TikTok resolver emits five-segment
tokens `tt_<type>_<index>_<timestamp>_<sessionid>` (src/messenger.py
lines 286, 293), but `handle_callback` always takes `parts[3]` as the
session id (line 502). For the token
`"tt_mp4_1_20240101000000_abc123"` the last segment — the session id the
resolver embedded — is `"abc123"`, yet the router looks up the fourth
segment `"20240101000000"` (the timestamp), so even with the session
`"abc123"` present in the cache the press is answered "session expired"
and the TikTok handler is never reached. -/
theorem tiktok_token_session_extraction :
    handle_callback (fun s => if s = "abc123" then some (0 : Nat) else none)
        "tt_mp4_1_20240101000000_abc123" =
      .sessionExpired "20240101000000" ∧
    (pySplit "_" "tt_mp4_1_20240101000000_abc123").getLast? = some "abc123" :=
  ⟨rfl, rfl⟩

/-! Specification-level descriptions of the three candidate classes the
selection actually ranges over, used to characterize `pickBestAudio`. -/

/-- A non-denied audio-kind item of quality exactly "128K". -/
def pick128 (it : YtMediaItem) : Bool :=
  audioKind it && !badQuality it.mediaQuality && (it.mediaQuality == "128K")

/-- A non-denied audio-kind item of (uppercased) extension "M4A". -/
def pickM4A (it : YtMediaItem) : Bool :=
  audioKind it && !badQuality it.mediaQuality &&
    (upperStr it.mediaExtension == "M4A")

/-- An item whose lowercased type is "audio", with no quality check. -/
def pickAudioType (it : YtMediaItem) : Bool :=
  lowerStr it.type == "audio"

/-- With `best_audio` already set, the first pass only looks for a 128K
item; otherwise it keeps the remembered one. -/
theorem bestAudioFirstPass_some (items : List YtMediaItem) :
    ∀ b, bestAudioFirstPass items (some b) =
      (items.find? pick128).or (some b) := by
  induction items with
  | nil => intro b; simp [bestAudioFirstPass]
  | cons it rest ih =>
    intro b
    by_cases hk : audioKind it
    · by_cases hb : badQuality it.mediaQuality
      · have hp : pick128 it = false := by simp [pick128, hb]
        simp [bestAudioFirstPass, hk, hb, List.find?_cons, hp, ih]
      · by_cases h128 : it.mediaQuality = "128K"
        · have hbq : badQuality "128K" = false := by decide
          have hp : pick128 it = true := by simp [pick128, hk, h128, hbq]
          simp [bestAudioFirstPass, hk, h128, hbq, List.find?_cons, hp]
        · have hp : pick128 it = false := by simp [pick128, h128]
          simp [bestAudioFirstPass, hk, hb, h128, List.find?_cons, hp, ih]
    · have hp : pick128 it = false := by simp [pick128, audioKind] at hk ⊢; tauto
      simp [bestAudioFirstPass, hk, List.find?_cons, hp, ih]

/-- The first pass from an unset `best_audio`: the first good 128K item,
else the first good M4A item. -/
theorem bestAudioFirstPass_none (items : List YtMediaItem) :
    bestAudioFirstPass items none =
      (items.find? pick128).or (items.find? pickM4A) := by
  induction items with
  | nil => simp [bestAudioFirstPass]
  | cons it rest ih =>
    by_cases hk : audioKind it
    · by_cases hb : badQuality it.mediaQuality
      · have hp : pick128 it = false := by simp [pick128, hb]
        have hq : pickM4A it = false := by simp [pickM4A, hb]
        simp [bestAudioFirstPass, hk, hb, List.find?_cons, hp, hq, ih]
      · by_cases h128 : it.mediaQuality = "128K"
        · have hbq : badQuality "128K" = false := by decide
          have hp : pick128 it = true := by simp [pick128, hk, h128, hbq]
          simp [bestAudioFirstPass, hk, h128, hbq, List.find?_cons, hp]
        · have hp : pick128 it = false := by simp [pick128, h128]
          by_cases hm : upperStr it.mediaExtension = "M4A"
          · have hq : pickM4A it = true := by simp [pickM4A, hk, hb, hm]
            simp [bestAudioFirstPass, hk, hb, h128, hm, List.find?_cons, hp, hq,
              bestAudioFirstPass_some]
          · have hq : pickM4A it = false := by simp [pickM4A, hm]
            simp [bestAudioFirstPass, hk, hb, h128, hm, List.find?_cons, hp, hq, ih]
    · have hp : pick128 it = false := by simp [pick128, audioKind] at hk ⊢; tauto
      have hq : pickM4A it = false := by simp [pickM4A, audioKind] at hk ⊢; tauto
      simp [bestAudioFirstPass, hk, List.find?_cons, hp, hq, ih]

/-- The fallback pass is a `find?` on the type tag. -/
theorem bestAudioFallback_eq (items : List YtMediaItem) :
    bestAudioFallback items = items.find? pickAudioType := by
  induction items with
  | nil => simp [bestAudioFallback]
  | cons it rest ih =>
    by_cases h : lowerStr it.type = "audio"
    · simp [bestAudioFallback, h, List.find?_cons, pickAudioType]
    · simp [bestAudioFallback, h, List.find?_cons, pickAudioType, ih]

/-- C5 (amended): `pickBestAudio` equals, in order of preference, the
first non-denied audio-kind item with quality label exactly "128K", then
the first non-denied item with extension M4A, then — with no deny-list
check at all — the first item of type "audio". In particular it is a
pure function of the ordered list (deterministic), and whenever a
non-denied 128K audio item exists it is selected; but the claim's
"first remaining candidate" and "never selects a deny-listed label"
clauses fail, as the counterexample shows. -/
theorem best_audio_selection_amended (items : List YtMediaItem) :
    pickBestAudio items =
      ((items.find? pick128).or (items.find? pickM4A)).or
        (items.find? pickAudioType) := by
  unfold pickBestAudio
  rw [bestAudioFirstPass_none, bestAudioFallback_eq]
  cases h : (items.find? pick128).or (items.find? pickM4A) with
  | none => simp [Option.or]
  | some b => simp [Option.or]

/-- C5 (refuting evaluation): a media list whose only entry is an audio
item carrying the deny-listed label "48K" — the selection returns that
very item through the fallback pass, so the claim's "never selects an
item whose quality label is on the deny-list" is false. -/
theorem best_audio_denylist_counterexample :
    pickBestAudio [⟨"audio", "mp3", "48K", "", "http://x", "1 MB"⟩] =
      some ⟨"audio", "mp3", "48K", "", "http://x", "1 MB"⟩ ∧
    badQuality "48K" = true :=
  ⟨rfl, rfl⟩

/-- Every format surviving the YouTube filter has a non-empty URL, and
an m4a format never carries a label from the YouTube deny-list. -/
theorem yt_formats_clean (items : List YtMediaItem) :
    ∀ f ∈ ytFilterFormats items,
      f.url ≠ "" ∧
        (lowerStr f.extension = "m4a" → ytM4aDenied f.quality = false) := by
  induction items with
  | nil => intro f hf; simp [ytFilterFormats] at hf
  | cons item rest ih =>
    intro f hf
    simp only [ytFilterFormats] at hf
    split at hf
    · exact ih f hf
    · rename_i hskip
      split at hf
      · rename_i hkeep
        rcases List.mem_cons.mp hf with hEq | hfr
        · subst hEq
          simp only [Bool.and_eq_true, Bool.or_eq_true, decide_eq_true_eq]
            at hkeep
          refine ⟨hkeep.2, fun hm4a => ?_⟩
          have hm4a2 : lowerStr item.mediaExtension = "m4a" := hm4a
          show ytM4aDenied item.mediaQuality = false
          cases hden : ytM4aDenied item.mediaQuality with
          | false => rfl
          | true => exact absurd (by simp [hm4a2, hden]) hskip
        · exact ih f hfr
      · exact ih f hf

/-- Every Instagram media item carries the anchor's `href`, which
contains the `media.php?media=` marker and is therefore non-empty. -/
theorem insta_media_urls (uq : String → String) (anchors : List InstaAnchor) :
    ∀ m ∈ parseMediaAnchors uq anchors, m.url ≠ "" := by
  induction anchors with
  | nil => intro m hm; simp [parseMediaAnchors] at hm
  | cons a rest ih =>
    intro m hm
    simp only [parseMediaAnchors] at hm
    split at hm
    · rename_i hmark
      rcases List.mem_cons.mp hm with hEq | hmr
      · subst hEq
        show a.href ≠ ""
        intro h0
        rw [h0] at hmark
        exact absurd hmark (by decide)
      · exact ih m hmr
    · exact ih m hm

/-- C6 (amended): the YouTube `yt_formats` list contains no element
with an empty URL and no m4a element whose label is on the YouTube
deny-list (labels containing "false", "48K", "128K"); every Instagram
media item (hence the cached `insta_url`, which is `media_items[0].url`)
has a non-empty URL; but the TikTok `tt_links` list is cached exactly as
the external API returned it, with no filtering at all. -/
theorem resolver_cache_urls_amended (items : List YtMediaItem)
    (uq : String → String) (anchors : List InstaAnchor)
    (desc ts : String) (links : List TtLink) :
    (∀ f ∈ ytFilterFormats items,
      f.url ≠ "" ∧
        (lowerStr f.extension = "m4a" → ytM4aDenied f.quality = false)) ∧
    (∀ m ∈ parseMediaAnchors uq anchors, m.url ≠ "") ∧
    (tiktokCacheData desc links ts).ttLinks = links :=
  ⟨yt_formats_clean items, insta_media_urls uq anchors, rfl⟩

/-- Witness for C6 at concrete resolver outputs. -/
theorem resolver_cache_urls_witness :
    (⟨"mp4", "hd", "720p", "http://u", "1MB", "video"⟩ : YtFormat).url ≠ "" ∧
    (⟨"https://insta-save.net/media.php?media=x", "x", "T", "1MB", "mp4",
        "v.mp4"⟩ : InstaMediaItem).url ≠ "" :=
  ⟨((resolver_cache_urls_amended
        [⟨"video", "mp4", "720p", "hd", "http://u", "1MB"⟩] id
        [⟨"https://insta-save.net/media.php?media=x", "T", "1MB", "v.mp4"⟩]
        "d" "ts" []).1
      ⟨"mp4", "hd", "720p", "http://u", "1MB", "video"⟩ (by decide)).1,
   (resolver_cache_urls_amended
        [⟨"video", "mp4", "720p", "hd", "http://u", "1MB"⟩] id
        [⟨"https://insta-save.net/media.php?media=x", "T", "1MB", "v.mp4"⟩]
        "d" "ts" []).2.1
      ⟨"https://insta-save.net/media.php?media=x", "x", "T", "1MB", "mp4",
        "v.mp4"⟩ (by decide)⟩

/-- C6 (refuting evaluation): a lovetik `links` element with an empty
download URL is cached verbatim by the TikTok resolver, so the cached
list contains an element with an empty source URL. -/
theorem tiktok_cache_unfiltered_counterexample :
    (tiktokCacheData "desc" [⟨"MP4 HD", "hd", ""⟩] "20240101000000").ttLinks =
      [⟨"MP4 HD", "hd", ""⟩] ∧
    (⟨"MP4 HD", "hd", ""⟩ : TtLink).a = "" :=
  ⟨rfl, rfl⟩

/-- If the counter would overflow the cap, the write loop aborts with
the file removed, regardless of any stream error after the chunks. -/
theorem searchWriteLoop_overflow (maxB : Nat) (err : Bool) :
    ∀ (chunks : List Nat) (w : Nat), w ≤ maxB →
      w + sumChunks chunks > maxB →
      searchWriteLoop maxB err w chunks = (.tooLargeStream, none) := by
  intro chunks
  induction chunks with
  | nil =>
    intro w hw hov
    exfalso
    have h0 : sumChunks ([] : List Nat) = 0 := rfl
    rw [h0] at hov
    omega
  | cons c rest ih =>
    intro w hw hov
    have hsum : sumChunks (c :: rest) = c + sumChunks rest := by
      simp [sumChunks]
    by_cases hc : c = 0
    · subst hc
      simp only [searchWriteLoop, if_pos rfl]
      exact ih w hw (by omega)
    · simp only [searchWriteLoop, if_neg hc]
      by_cases hover : w + c > maxB
      · rw [if_pos hover]
      · rw [if_neg hover]
        exact ih (w + c) (by omega) (by omega)

/-- A body that fits under the cap, with no stream error, is written in
full and its exact byte count is reported and left on disk. -/
theorem searchWriteLoop_complete (maxB : Nat) :
    ∀ (chunks : List Nat) (w : Nat), w + sumChunks chunks ≤ maxB →
      searchWriteLoop maxB false w chunks =
        (.done (w + sumChunks chunks), some (w + sumChunks chunks)) := by
  intro chunks
  induction chunks with
  | nil =>
    intro w h
    have h0 : sumChunks ([] : List Nat) = 0 := rfl
    rw [h0]
    simp [searchWriteLoop]
  | cons c rest ih =>
    intro w h
    have hsum : sumChunks (c :: rest) = c + sumChunks rest := by
      simp [sumChunks]
    by_cases hc : c = 0
    · subst hc
      simp only [searchWriteLoop, if_pos rfl]
      have harith : w + sumChunks (0 :: rest) = w + sumChunks rest := by omega
      rw [harith]
      exact ih w (by omega)
    · simp only [searchWriteLoop, if_neg hc]
      rw [if_neg (by omega : ¬ w + c > maxB)]
      have harith : w + sumChunks (c :: rest) = w + c + sumChunks rest := by
        omega
      rw [harith]
      exact ih (w + c) (by omega)

/-- C1 (amended): the running-byte-counter enforcement holds for the
music-search audio downloader (src/search.py lines 229-252): whenever
the declared content-length is absent or within the 50MB cap but the
actual body exceeds the cap, the loop aborts the instant the counter
passes the cap, removes the partial file and reports too-large; a
content-length above the cap is rejected before anything is written;
and a clean small response leaves a file of exactly the body's byte
count. The messenger `download_file` (src/messenger.py lines 441-477),
by contrast, keeps no counter: called as at every call site (with
`file_size = 0`), a 200 response of valid content type with no
content-length header is streamed to disk in full and reported a
success, however large the body. -/
theorem streaming_size_enforcement_amended (r : HttpResponse) :
    (r.statusCode < 400 →
      (r.contentLength = none ∨
        ∃ cl, r.contentLength = some cl ∧ cl ≤ searchMaxBytes) →
      sumChunks r.chunks > searchMaxBytes →
      searchDownload r = (.tooLargeStream, none)) ∧
    (∀ cl, r.statusCode < 400 → r.contentLength = some cl →
      cl > searchMaxBytes → searchDownload r = (.tooLargeHeader, none)) ∧
    (r.statusCode < 400 →
      (r.contentLength = none ∨
        ∃ cl, r.contentLength = some cl ∧ cl ≤ searchMaxBytes) →
      sumChunks r.chunks ≤ searchMaxBytes → r.streamError = false →
      searchDownload r =
        (.done (sumChunks r.chunks), some (sumChunks r.chunks))) ∧
    (r.statusCode = 200 → validContentType r.contentType = true →
      r.contentLength = none → r.streamError = false →
      download_file (.ok r) none 0 = (true, some (sumChunks r.chunks))) := by
  obtain ⟨st, ct, clen, chunks, err⟩ := r
  refine ⟨fun hst hcl hov => ?_, fun cl hst hcl hbig => ?_,
          fun hst hcl hfit herr => ?_, fun hst hct hcl herr => ?_⟩
  · dsimp only at hst hov hcl
    have hov2 : 0 + sumChunks chunks > searchMaxBytes := by omega
    rcases hcl with hnone | ⟨cl, hsome, hle⟩
    · subst hnone
      exact (if_neg (by omega : ¬ st ≥ 400)).trans
        (searchWriteLoop_overflow searchMaxBytes err chunks 0
          (Nat.zero_le _) hov2)
    · subst hsome
      exact (if_neg (by omega : ¬ st ≥ 400)).trans
        ((if_neg (by omega : ¬ cl > searchMaxBytes)).trans
          (searchWriteLoop_overflow searchMaxBytes err chunks 0
            (Nat.zero_le _) hov2))
  · dsimp only at hst hcl
    subst hcl
    exact (if_neg (by omega : ¬ st ≥ 400)).trans (if_pos hbig)
  · dsimp only at hst hcl hfit herr
    subst herr
    have hloop := searchWriteLoop_complete searchMaxBytes chunks 0 (by omega)
    rw [Nat.zero_add] at hloop
    rcases hcl with hnone | ⟨cl, hsome, hle⟩
    · subst hnone
      exact (if_neg (by omega : ¬ st ≥ 400)).trans hloop
    · subst hsome
      exact (if_neg (by omega : ¬ st ≥ 400)).trans
        ((if_neg (by omega : ¬ cl > searchMaxBytes)).trans hloop)
  · dsimp only at hst hct hcl herr
    subst hst
    subst hcl
    subst herr
    exact if_neg (by simp [hct] : ¬ (!validContentType ct) = true)

/-- Witness for C1 at concrete responses: a 60MB body with no
content-length is aborted and removed by the search downloader, an
over-cap declared length is rejected with nothing written, a 1000-byte
clean body yields a 1000-byte file — while the messenger downloader
reports success on the same header-less shape. -/
theorem streaming_size_enforcement_witness :
    searchDownload ⟨200, "video/mp4", none, [60000000], false⟩ =
      (.tooLargeStream, none) ∧
    searchDownload ⟨200, "video/mp4", some 60000000, [], false⟩ =
      (.tooLargeHeader, none) ∧
    searchDownload ⟨200, "video/mp4", none, [1000], false⟩ =
      (.done 1000, some 1000) ∧
    download_file (.ok ⟨200, "video/mp4", none, [1000], false⟩) none 0 =
      (true, some 1000) :=
  ⟨(streaming_size_enforcement_amended _).1 (by decide) (Or.inl rfl)
     (by decide),
   (streaming_size_enforcement_amended _).2.1 60000000 (by decide) rfl
     (by decide),
   (streaming_size_enforcement_amended _).2.2.1 (by decide) (Or.inl rfl)
     (by decide) rfl,
   (streaming_size_enforcement_amended _).2.2.2 rfl (by decide) rfl rfl⟩

/-- C1 (refuting evaluation): the messenger `download_file` given a 200
response with valid content type, no content-length header and a single
200MB chunk — double the 100MB cap — writes the entire body and returns
success, with the oversized file left at the destination: no counter,
no abort, no deletion, no too-large failure. -/
theorem download_file_no_counter_counterexample :
    download_file (.ok ⟨200, "video/mp4", none, [209715200], false⟩) none 0 =
      (true, some 209715200) ∧
    209715200 > 100 * 1024 * 1024 :=
  ⟨rfl, by omega⟩

/-- C7 (amended): the messenger `download_file` failure modes and the
file they leave. An invalid content type and a declared content-length
above the cap are both rejected before the file is opened, so nothing is
on disk; but an I/O exception mid-stream is caught and reported as a
failure with the partial file left at the destination path (only the
caller's later `cleanup_temp_files` removes it). -/
theorem download_file_failure_paths_amended (r : HttpResponse)
    (fb : Option GetResult) (fs : Nat) :
    (r.statusCode = 200 → validContentType r.contentType = false →
      download_file (.ok r) fb fs = (false, none)) ∧
    (∀ cl, r.statusCode = 200 → validContentType r.contentType = true →
      r.contentLength = some cl → cl > 100 * 1024 * 1024 →
      download_file (.ok r) fb fs = (false, none)) ∧
    (r.statusCode = 200 → validContentType r.contentType = true →
      r.contentLength.getD (fs * 1024 * 1024) ≤ 100 * 1024 * 1024 →
      r.streamError = true →
      download_file (.ok r) fb fs = (false, some (sumChunks r.chunks))) := by
  obtain ⟨st, ct, clen, chunks, err⟩ := r
  refine ⟨fun hst hct => ?_, fun cl hst hct hcl hbig => ?_,
          fun hst hct hsize herr => ?_⟩
  · dsimp only at hst hct
    subst hst
    exact if_pos (by simp [hct] : (!validContentType ct) = true)
  · dsimp only at hst hct hcl
    subst hst
    subst hcl
    exact (if_neg (by simp [hct] : ¬ (!validContentType ct) = true)).trans
      (if_pos hbig)
  · dsimp only at hst hct hsize herr
    subst hst
    subst herr
    exact (if_neg (by simp [hct] : ¬ (!validContentType ct) = true)).trans
      ((if_neg (by omega :
          ¬ clen.getD (fs * 1024 * 1024) > 100 * 1024 * 1024)).trans rfl)

/-- Witness for C7 at concrete responses: a text/html response and an
oversized declared length both fail with no file; a mid-stream error
after one 100-byte chunk fails with the 100-byte partial file present. -/
theorem download_file_failure_paths_witness :
    download_file (.ok ⟨200, "text/html", none, [7], false⟩) none 0 =
      (false, none) ∧
    download_file (.ok ⟨200, "video/mp4", some 200000000, [], false⟩) none 0 =
      (false, none) ∧
    download_file (.ok ⟨200, "video/mp4", some 1000, [100], true⟩) none 0 =
      (false, some 100) :=
  ⟨(download_file_failure_paths_amended _ none 0).1 rfl (by decide),
   (download_file_failure_paths_amended _ none 0).2.1 200000000 rfl (by decide)
     rfl (by omega),
   (download_file_failure_paths_amended _ none 0).2.2 rfl (by decide)
     (by decide) rfl⟩

/-- C7 (refuting evaluation): an I/O exception after one 100-byte chunk
makes `download_file` return a failure while the 100-byte partial file
is still at the destination path — so "no partial file remains whenever
a failure is returned" is false. -/
theorem download_file_partial_file_counterexample :
    ¬ ((download_file (.ok ⟨200, "video/mp4", some 1000, [100], true⟩)
          none 0).1 = false →
        (download_file (.ok ⟨200, "video/mp4", some 1000, [100], true⟩)
          none 0).2 = none) := by
  intro h
  exact absurd (h rfl) (by decide)

end Audiov1
